import Mathlib

/-!
# Verification of the `Conversions` unit-conversion engine

Shallow embedding of `src/Conversions.hpp` (namespace `LouiEriksson::Maths`,
`struct Conversions`).  The C++ scalar `conversion_scalar_t = long double` is
modelled as `ℚ`: every constant in the source is a finite decimal literal and
every operation used by the conversion engine is field arithmetic together
with `min`/`max`, all of which are exact over `ℚ`.  The two geospatial
functions use `std::cos`, so they are modelled over `ℝ` with `Real.cos`.

Each category keeps the source's structure: a closed unit enumeration, an
alias lookup table (`s_Lookup`, modelled as the literal association list from
the initializer), a conversion table (`s_Conversion`) and a `Convert`
function.
-/

namespace Conversions

/-! ## Speed (`Conversions::Speed`) -/

namespace Speed

inductive Unit : Type
  | KilometreHour
  | FeetSecond
  | MileHour
  | Knot
  | MetreSecond
  | Mach
  | Lightspeed
deriving DecidableEq, Repr

open Unit

/-- Conversions between common speed units and m/s (`Speed::s_Conversion`). -/
def s_Conversion : Unit → ℚ
  | KilometreHour => 0.2777778
  | FeetSecond    => 0.3048
  | MileHour      => 0.44704
  | Knot          => 0.514444
  | MetreSecond   => 1.0
  | Mach          => 340.29
  | Lightspeed    => 299792458.0

/-- `Speed::Convert`: `_val * (s_Conversion[_from] / s_Conversion[_to])`. -/
def Convert (v : ℚ) (f t : Unit) : ℚ :=
  v * (s_Conversion f / s_Conversion t)

/-- `Speed::s_Lookup` as the literal association list of its initializer. -/
def s_Lookup : List (String × Unit) :=
  [ ("k/h",   KilometreHour),
    ("km/h",  KilometreHour),
    ("kph",   KilometreHour),
    ("f/s",   FeetSecond),
    ("fps",   FeetSecond),
    ("mi/h",  MileHour),
    ("mph",   MileHour),
    ("kn",    Knot),
    ("kt",    Knot),
    ("knot",  Knot),
    ("knots", Knot),
    ("nmi/h", Knot),
    ("nmiph", Knot),
    ("m/s",   MetreSecond),
    ("mps",   MetreSecond),
    ("mach",  Mach),
    ("c",     Lightspeed) ]

end Speed

/-! ## Distance (`Conversions::Distance`) -/

namespace Distance

inductive Unit : Type
  | Millimetre
  | Centimetre
  | Inch
  | Foot
  | Yard
  | Metre
  | Kilometre
  | Mile
  | NauticalMile
  | AstronomicalUnit
  | Lightyear
  | Parsec
deriving DecidableEq, Repr

open Unit

/-- Conversions between common lateral distance units and metres
(`Distance::s_Conversion`). -/
def s_Conversion : Unit → ℚ
  | Millimetre       => 0.001
  | Centimetre       => 0.01
  | Inch             => 0.0254
  | Foot             => 0.30479999
  | Yard             => 0.9144
  | Metre            => 1.0
  | Kilometre        => 1000.0
  | Mile             => 1609.344
  | NauticalMile     => 1852.0
  | AstronomicalUnit => 149597870700.0
  | Lightyear        => 9460730472580800.0
  | Parsec           => 30856775810000000.0

/-- `Distance::Convert`: `_val * (s_Conversion[_from] / s_Conversion[_to])`. -/
def Convert (v : ℚ) (f t : Unit) : ℚ :=
  v * (s_Conversion f / s_Conversion t)

/-- `Distance::s_Lookup` as the literal association list of its initializer. -/
def s_Lookup : List (String × Unit) :=
  [ ("mm",         Millimetre),
    ("cm",         Centimetre),
    ("\"",         Inch),
    ("in",         Inch),
    ("f",          Foot),
    ("\u0027",         Foot),
    ("ft",         Foot),
    ("yards",      Yard),
    ("yard",       Yard),
    ("yd",         Yard),
    ("m",          Metre),
    ("km",         Kilometre),
    ("mi",         Mile),
    ("nmi",        NauticalMile),
    ("au",         AstronomicalUnit),
    ("ly",         Lightyear),
    ("lightyear",  Lightyear),
    ("lightyears", Lightyear),
    ("pc",         Parsec),
    ("parsec",     Parsec),
    ("parsecs",    Parsec) ]

end Distance

/-! ## Rotation (`Conversions::Rotation`) -/

namespace Rotation

inductive Unit : Type
  | Gradian
  | Degree
  | Radian
  | Turn
deriving DecidableEq, Repr

open Unit

/-- `Rotation::s_DegreesToRadians = M_PI / 180.0` (real-valued, used by the
geospatial functions). -/
noncomputable def s_DegreesToRadians : ℝ := Real.pi / 180.0

/-- Conversions between common rotational distance units and degrees
(`Rotation::s_Conversion`). -/
def s_Conversion : Unit → ℚ
  | Gradian => 0.9
  | Degree  => 1.0
  | Radian  => 57.29578
  | Turn    => 360.0

/-- `Rotation::Convert`: `_val * (s_Conversion[_from] / s_Conversion[_to])`. -/
def Convert (v : ℚ) (f t : Unit) : ℚ :=
  v * (s_Conversion f / s_Conversion t)

/-- `Rotation::s_Lookup` as the literal association list of its initializer. -/
def s_Lookup : List (String × Unit) :=
  [ ("grad",     Gradian),
    ("gradians", Gradian),
    ("°",        Degree),
    ("d",        Degree),
    ("deg",      Degree),
    ("degree",   Degree),
    ("degrees",  Degree),
    ("rad",      Radian),
    ("radians",  Radian),
    ("turns",    Turn),
    ("turn",     Turn),
    ("cycle",    Turn),
    ("pla",      Turn),
    ("rev",      Turn),
    ("tr",       Turn) ]

end Rotation

/-! ## Time (`Conversions::Time`) -/

namespace Time

inductive Unit : Type
  | Nanosecond
  | Microsecond
  | Millisecond
  | Second
  | Minute
  | Hour
  | Day
deriving DecidableEq, Repr

open Unit

/-- Conversions between common time units and seconds (`Time::s_Conversion`). -/
def s_Conversion : Unit → ℚ
  | Nanosecond  => 0.000000001
  | Microsecond => 0.000001
  | Millisecond => 0.001
  | Second      => 1.0
  | Minute      => 60.0
  | Hour        => 3600.0
  | Day         => 86400.0

/-- `Time::Convert`: `_val * (s_Conversion[_from] / s_Conversion[_to])`. -/
def Convert (v : ℚ) (f t : Unit) : ℚ :=
  v * (s_Conversion f / s_Conversion t)

/-- `Time::s_Lookup` as the literal association list of its initializer. -/
def s_Lookup : List (String × Unit) :=
  [ ("nanosecond",   Nanosecond),
    ("nanoseconds",  Nanosecond),
    ("ns",           Nanosecond),
    ("microsecond",  Microsecond),
    ("microseconds", Microsecond),
    ("µs",           Microsecond),
    ("millisecond",  Millisecond),
    ("milliseconds", Millisecond),
    ("ms",           Millisecond),
    ("s",            Second),
    ("sec",          Second),
    ("seconds",      Second),
    ("secs",         Second),
    ("m",            Minute),
    ("min",          Minute),
    ("minute",       Minute),
    ("minutes",      Minute),
    ("h",            Hour),
    ("hour",         Hour),
    ("hours",        Hour),
    ("hr",           Hour),
    ("d",            Day),
    ("day",          Day),
    ("days",         Day) ]

end Time

/-! ## Temperature (`Conversions::Temperature`) -/

namespace Temperature

inductive Unit : Type
  | Celsius
  | Fahrenheit
  | Kelvin
deriving DecidableEq, Repr

open Unit

/-- `Temperature::s_PlanckTemperature` (the source literal, verbatim). -/
def s_PlanckTemperature : ℚ := 14200000000000000000000000000000000.0

/-- `Temperature::s_AbsoluteZero`. -/
def s_AbsoluteZero : ℚ := 0.0

/-- `Temperature::Convert`: switch on `_from` into Kelvin (Celsius branch is
`_val - 272.15`, Fahrenheit `(_val + 459.67) / 1.8`, Kelvin identity), clamp
with `std::max(result, s_AbsoluteZero)`, then switch on `_to` out of Kelvin
(Celsius `result += 273.15`, Fahrenheit `result * 1.8 - 459.67`, Kelvin
identity). -/
def Convert (v : ℚ) (f t : Unit) : ℚ :=
  let result : ℚ :=
    match f with
    | Celsius    => v - 272.15
    | Fahrenheit => (v + 459.67) / 1.8
    | Kelvin     => v
  let result : ℚ := max result s_AbsoluteZero
  match t with
  | Celsius    => result + 273.15
  | Fahrenheit => result * 1.8 - 459.67
  | Kelvin     => result

/-- The first `switch (_from)` block of `Temperature::Convert` ("Convert to
Kelvin"), as a function of its own. -/
def toKelvin (v : ℚ) : Unit → ℚ
  | Celsius    => v - 272.15
  | Fahrenheit => (v + 459.67) / 1.8
  | Kelvin     => v

/-- The second `switch (_to)` block of `Temperature::Convert` ("Convert
Kelvin to target"), as a function of its own. -/
def fromKelvin (r : ℚ) : Unit → ℚ
  | Celsius    => r + 273.15
  | Fahrenheit => r * 1.8 - 459.67
  | Kelvin     => r

/-- The underlying-integer code of a `Temperature::Unit` enumerator
(`enum Unit : unsigned char { Celsius, Fahrenheit, Kelvin }`). -/
def unitCode : Unit → Nat
  | Celsius    => 0
  | Fahrenheit => 1
  | Kelvin     => 2

/-- `Temperature::Convert` viewed on raw `unsigned char` enum codes: the two
`default:` branches `throw std::runtime_error("Not implemented!")` become
`Except.error`.  Codes `0`, `1`, `2` are `Celsius`, `Fahrenheit`, `Kelvin`. -/
def ConvertChecked (v : ℚ) (f t : Nat) : Except String ℚ := do
  let result : ℚ ←
    match f with
    | 0 => pure (v - 272.15)
    | 1 => pure ((v + 459.67) / 1.8)
    | 2 => pure v
    | _ => throw "Not implemented!"
  let result : ℚ := max result s_AbsoluteZero
  match t with
  | 0 => pure (result + 273.15)
  | 1 => pure (result * 1.8 - 459.67)
  | 2 => pure result
  | _ => throw "Not implemented!"

/-- `Temperature::ClampTemperature`: convert to Kelvin, take the `std::min`
with `s_PlanckTemperature`, convert back. -/
def ClampTemperature (v : ℚ) (u : Unit) : ℚ :=
  Convert (min (Convert v u Kelvin) s_PlanckTemperature) Kelvin u

/-- `Temperature::s_Lookup` as the literal association list of its
initializer. -/
def s_Lookup : List (String × Unit) :=
  [ ("celsius",    Celsius),
    ("c",          Celsius),
    ("°c",         Celsius),
    ("°C",         Celsius),
    ("fahrenheit", Fahrenheit),
    ("f",          Fahrenheit),
    ("°f",         Fahrenheit),
    ("°F",         Fahrenheit),
    ("kelvin",     Kelvin),
    ("k",          Kelvin),
    ("K",          Kelvin) ]

end Temperature

/-! ## Pressure (`Conversions::Pressure`) -/

namespace Pressure

inductive Unit : Type
  | DyneSquareCentimetre
  | MilliTorr
  | Pascal
  | MillimetreWater
  | PoundSquareFoot
  | Hectopascal
  | CentimetreWater
  | MillimetreMercury
  | InchWater
  | OunceSquareInch
  | Decibel
  | Kilopascal
  | CentimetreMercury
  | FeetWater
  | InchMercury
  | PoundSquareInch
  | MetreWater
  | TonneSquareFoot_Short
  | TechnicalAtmosphere
  | KilogramSquareCentimetre
  | Bar
  | Atmosphere
  | Megapascal
  | TonneSquareInch_Short
  | TonneSquareInch_Long
deriving DecidableEq, Repr

open Unit

/-- Conversions between common pressure units and atmospheres
(`Pressure::s_Conversion`). -/
def s_Conversion : Unit → ℚ
  | DyneSquareCentimetre     => 0.000000987
  | MilliTorr                => 0.000001316
  | Pascal                   => 0.000009869
  | MillimetreWater          => 0.000096784
  | PoundSquareFoot          => 0.000472541
  | Hectopascal              => 0.000986923
  | CentimetreWater          => 0.000967839
  | MillimetreMercury        => 0.001315789
  | InchWater                => 0.002458319
  | OunceSquareInch          => 0.004252876
  | Decibel                  => 0.005154639
  | Kilopascal               => 0.009869233
  | CentimetreMercury        => 0.013157895
  | FeetWater                => 0.02949983
  | InchMercury              => 0.033421008
  | PoundSquareInch          => 0.06804619
  | MetreWater               => 0.096783872
  | TonneSquareFoot_Short    => 0.945081324
  | TechnicalAtmosphere      => 0.967838719
  | KilogramSquareCentimetre => 0.967838719
  | Bar                      => 0.986923267
  | Atmosphere               => 1.0
  | Megapascal               => 9.869232667
  | TonneSquareInch_Short    => 136.092009086
  | TonneSquareInch_Long     => 152.422992094

/-- `Pressure::Convert`: `_val * (s_Conversion[_from] / s_Conversion[_to])`. -/
def Convert (v : ℚ) (f t : Unit) : ℚ :=
  v * (s_Conversion f / s_Conversion t)

/-- `Pressure::s_Lookup` as the literal association list of its initializer. -/
def s_Lookup : List (String × Unit) :=
  [ ("dyn/cm²",      DyneSquareCentimetre),
    ("dyn/cm^2",     DyneSquareCentimetre),
    ("dyn/cm2",      DyneSquareCentimetre),
    ("mTorr",        MilliTorr),
    ("pascals",      Pascal),
    ("pascal",       Pascal),
    ("pa",           Pascal),
    ("Pa",           Pascal),
    ("N/m²",         Pascal),
    ("N/m^2",        Pascal),
    ("N/m2",         Pascal),
    ("mmH2O",        MillimetreWater),
    ("psf",          PoundSquareFoot),
    ("millibars",    Hectopascal),
    ("millibar",     Hectopascal),
    ("mbar",         Hectopascal),
    ("hPa",          Hectopascal),
    ("hectopascals", Hectopascal),
    ("hectopascal",  Hectopascal),
    ("cmH2O",        CentimetreWater),
    ("mmHg",         MillimetreMercury),
    ("inH20",        InchWater),
    ("oz/in²",       OunceSquareInch),
    ("oz/in^2",      OunceSquareInch),
    ("oz/in2",       OunceSquareInch),
    ("dB",           Decibel),
    ("decibel",      Decibel),
    ("decibels",     Decibel),
    ("kpa",          Kilopascal),
    ("kPa",          Kilopascal),
    ("kilopascals",  Kilopascal),
    ("kilopascal",   Kilopascal),
    ("cmHg",         CentimetreMercury),
    ("ftH2O",        FeetWater),
    ("inHg",         InchMercury),
    ("psi",          PoundSquareInch),
    ("mH2O",         MetreWater),
    ("tsf",          TonneSquareFoot_Short),
    ("tsf_us",       TonneSquareFoot_Short),
    ("tsf_short",    TonneSquareFoot_Short),
    ("at",           TechnicalAtmosphere),
    ("kg/cm²",       KilogramSquareCentimetre),
    ("kg/cm^2",      KilogramSquareCentimetre),
    ("kg/cm2",       KilogramSquareCentimetre),
    ("bars",         Bar),
    ("bar",          Bar),
    ("atmospheres",  Atmosphere),
    ("atmosphere",   Atmosphere),
    ("atm",          Atmosphere),
    ("MPa",          Megapascal),
    ("megapascals",  Megapascal),
    ("megapascal",   Megapascal),
    ("tsi",          TonneSquareInch_Short),
    ("tsi_us",       TonneSquareInch_Short),
    ("tsi_short",    TonneSquareInch_Short),
    ("tsi_uk",       TonneSquareInch_Long),
    ("tsi_long",     TonneSquareInch_Long) ]

end Pressure

/-! ## Mass (`Conversions::Mass`) -/

namespace Mass

inductive Unit : Type
  | Nanogram
  | Microgram
  | Milligram
  | Gram
  | Ounce
  | Pound
  | Kilogram
  | Ton
  | Kiloton
  | Megaton
  | Gigaton
deriving DecidableEq, Repr

open Unit

/-- Conversions between common mass units and kilograms
(`Mass::s_Conversion`). -/
def s_Conversion : Unit → ℚ
  | Nanogram  => 0.000000000001
  | Microgram => 0.000000001
  | Milligram => 0.000001
  | Gram      => 0.001
  | Ounce     => 0.02834952
  | Pound     => 0.4535923
  | Kilogram  => 1.0
  | Ton       => 1000.0
  | Kiloton   => 1000000.0
  | Megaton   => 1000000000.0
  | Gigaton   => 1000000000000.0

/-- `Mass::Convert`: `_val * (s_Conversion[_from] / s_Conversion[_to])`. -/
def Convert (v : ℚ) (f t : Unit) : ℚ :=
  v * (s_Conversion f / s_Conversion t)

/-- `Mass::s_Lookup` as the literal association list of its initializer. -/
def s_Lookup : List (String × Unit) :=
  [ ("nanogram",     Nanogram),
    ("nanogramme",   Nanogram),
    ("nanogrammes",  Nanogram),
    ("nanograms",    Nanogram),
    ("ng",           Nanogram),
    ("microgram",    Microgram),
    ("microgramme",  Microgram),
    ("microgrammes", Microgram),
    ("micrograms",   Microgram),
    ("μg",           Microgram),
    ("mg",           Milligram),
    ("milligram",    Milligram),
    ("milligramme",  Milligram),
    ("milligrammes", Milligram),
    ("milligrams",   Milligram),
    ("g",            Gram),
    ("gram",         Gram),
    ("gramme",       Gram),
    ("grammes",      Gram),
    ("grams",        Gram),
    ("ounce",        Ounce),
    ("oz",           Ounce),
    ("lb",           Pound),
    ("pound",        Pound),
    ("kg",           Kilogram),
    ("kilogram",     Kilogram),
    ("kilogramme",   Kilogram),
    ("kilogrammes",  Kilogram),
    ("kilograms",    Kilogram),
    ("t",            Ton),
    ("ton",          Ton),
    ("tonne",        Ton),
    ("tonnes",       Ton),
    ("tons",         Ton),
    ("kilotonne",    Kiloton),
    ("kiloton",      Kiloton),
    ("kilotonnes",   Kiloton),
    ("kilotons",     Kiloton),
    ("kt",           Kiloton),
    ("megaton",      Megaton),
    ("megatonne",    Megaton),
    ("megatonnes",   Megaton),
    ("megatons",     Megaton),
    ("Mt",           Megaton),
    ("gigaton",      Gigaton),
    ("gigatonne",    Gigaton),
    ("gigatonnes",   Gigaton),
    ("gigatons",     Gigaton),
    ("Gt",           Gigaton) ]

end Mass

/-! ## Area (`Conversions::Area`) -/

namespace Area

inductive Unit : Type
  | SquareMillimetre
  | SquareCentimetre
  | SquareInch
  | SquareMetre
  | SquareFoot
  | Acre
  | Hectare
  | SquareYard
deriving DecidableEq, Repr

open Unit

/-- Conversions between area units and square metres (`Area::s_Conversion`). -/
def s_Conversion : Unit → ℚ
  | SquareMillimetre => 0.000001
  | SquareCentimetre => 0.0001
  | SquareInch       => 0.00064516
  | SquareFoot       => 0.09290304
  | SquareYard       => 0.83612736
  | SquareMetre      => 1.0
  | Acre             => 4046.8564224
  | Hectare          => 10000.0

/-- `Area::Convert`: `_val * (s_Conversion[_from] / s_Conversion[_to])`. -/
def Convert (v : ℚ) (f t : Unit) : ℚ :=
  v * (s_Conversion f / s_Conversion t)

/-- `Area::s_Lookup` as the literal association list of its initializer. -/
def s_Lookup : List (String × Unit) :=
  [ ("mm2",     SquareMillimetre),
    ("mm^2",    SquareMillimetre),
    ("mm²",     SquareMillimetre),
    ("cm2",     SquareCentimetre),
    ("cm^2",    SquareCentimetre),
    ("cm²",     SquareCentimetre),
    ("\"²",     SquareInch),
    ("in2",     SquareInch),
    ("in^2",    SquareInch),
    ("in²",     SquareInch),
    ("\u00272",     SquareFoot),
    ("ft2",     SquareFoot),
    ("ft^2",    SquareFoot),
    ("ft²",     SquareFoot),
    ("yd2",     SquareYard),
    ("yd^2",    SquareYard),
    ("yd²",     SquareYard),
    ("m2",      SquareMetre),
    ("m^2",     SquareMetre),
    ("m²",      SquareMetre),
    ("ac",      Acre),
    ("acre",    Acre),
    ("ha",      Hectare),
    ("hectare", Hectare) ]

end Area

/-! ## Volume (`Conversions::Volume`) -/

namespace Volume

inductive Unit : Type
  | Millilitre
  | Centilitre
  | CubicInch
  | FluidOunce
  | Cup
  | Pint
  | Quart
  | Litre
  | Gallon
  | CubicFoot
  | Barrel
  | CubicYard
  | CubicMetre
deriving DecidableEq, Repr

open Unit

/-- Conversions between common volume units and cubic metres
(`Volume::s_Conversion`). -/
def s_Conversion : Unit → ℚ
  | Millilitre => 0.000001
  | Centilitre => 0.00001
  | CubicInch  => 0.000016387064
  | FluidOunce => 0.000029574
  | Cup        => 0.000237
  | Pint       => 0.000473176473
  | Quart      => 0.000946
  | Litre      => 0.001
  | Gallon     => 0.003785411784
  | CubicFoot  => 0.028316846592
  | Barrel     => 0.158987294928
  | CubicYard  => 0.764554858
  | CubicMetre => 1.0

/-- `Volume::Convert`: `_val * (s_Conversion[_from] / s_Conversion[_to])`. -/
def Convert (v : ℚ) (f t : Unit) : ℚ :=
  v * (s_Conversion f / s_Conversion t)

/-- `Volume::s_Lookup` as the literal association list of its initializer
(note: the source registers `"in3"` twice, once for `CubicInch` and once for
`CubicFoot`). -/
def s_Lookup : List (String × Unit) :=
  [ ("milliliter", Millilitre),
    ("millilitre", Millilitre),
    ("ml",         Millilitre),
    ("centiliter", Centilitre),
    ("centilitre", Centilitre),
    ("cl",         Centilitre),
    ("\"3",        CubicInch),
    ("\"^3",       CubicInch),
    ("\"³",        CubicInch),
    ("cu in",      CubicInch),
    ("cu. in",     CubicInch),
    ("cu. in.",    CubicInch),
    ("in. cu",     CubicInch),
    ("in. cu.",    CubicInch),
    ("in3",        CubicInch),
    ("in^3",       CubicInch),
    ("in³",        CubicInch),
    ("fl oz",      FluidOunce),
    ("fl ℥",       FluidOunce),
    ("fl. oz",     FluidOunce),
    ("fl/oz",      FluidOunce),
    ("floz",       FluidOunce),
    ("f℥",         FluidOunce),
    ("oz. fl",     FluidOunce),
    ("oz. fl.",    FluidOunce),
    ("ƒ ℥",        FluidOunce),
    ("℥",          FluidOunce),
    ("cup",        Cup),
    ("cups",       Cup),
    ("p",          Pint),
    ("pint",       Pint),
    ("pt",         Pint),
    ("qt",         Quart),
    ("quart",      Quart),
    ("l",          Litre),
    ("liter",      Litre),
    ("litre",      Litre),
    ("gal",        Gallon),
    ("gallon",     Gallon),
    ("\u00273",        CubicFoot),
    ("\u0027^3",       CubicFoot),
    ("\u0027³",        CubicFoot),
    ("cu f",       CubicFoot),
    ("cu ft",      CubicFoot),
    ("cu. f",      CubicFoot),
    ("cu. f.",     CubicFoot),
    ("cu. ft",     CubicFoot),
    ("cu. ft.",    CubicFoot),
    ("f. cu",      CubicFoot),
    ("f. cu.",     CubicFoot),
    ("f^3",        CubicFoot),
    ("ft. cu",     CubicFoot),
    ("ft. cu.",    CubicFoot),
    ("ft3",        CubicFoot),
    ("ft^3",       CubicFoot),
    ("ft³",        CubicFoot),
    ("f³",         CubicFoot),
    ("in3",        CubicFoot),
    ("barrel",     Barrel),
    ("barrels",    Barrel),
    ("bbl",        Barrel),
    ("yd3",        CubicYard),
    ("yd^3",       CubicYard),
    ("yd³",        CubicYard),
    ("m3",         CubicMetre),
    ("m^3",        CubicMetre),
    ("m³",         CubicMetre) ]

end Volume

/-! ## Geospatial distance conversion (`Conversions::Distance`, real-valued) -/

namespace Distance

/-- `Distance::ArcSecondsToMetres`:
`_arcSeconds * std::abs(std::cos(s_DegreesToRadians * _lat) * (1852.0 / 60.0))`. -/
noncomputable def ArcSecondsToMetres (arcSeconds : ℝ) (lat : ℝ := 0.0) : ℝ :=
  arcSeconds * |Real.cos (Rotation.s_DegreesToRadians * lat) * (1852.0 / 60.0)|

/-- `Distance::MetresToArcSeconds`:
`_metres * std::abs(std::cos(s_DegreesToRadians * _lat) / (1852.0 / 60.0))`. -/
noncomputable def MetresToArcSeconds (metres : ℝ) (lat : ℝ := 0.0) : ℝ :=
  metres * |Real.cos (Rotation.s_DegreesToRadians * lat) / (1852.0 / 60.0)|

end Distance

end Conversions

/-!
## Helper lemmas

General facts about the ratio-of-factors formula shared by the eight linear
categories, and evaluation/rewriting lemmas for the temperature engine.
-/

namespace Conversions

/-- The ratio-of-factors formula at equal units is the identity. -/
theorem ratio_identity (v x : ℚ) (hx : x ≠ 0) : v * (x / x) = v := by
  rw [div_self hx, mul_one]

/-- The ratio-of-factors formula applied forth and then back is the
identity. -/
theorem ratio_roundtrip (v a b : ℚ) (ha : a ≠ 0) (hb : b ≠ 0) :
    v * (a / b) * (b / a) = v := by
  field_simp

/-- Multiplying by a nonnegative factor and subtracting distributes over
`max`. -/
theorem max_mul_sub (a b p q : ℚ) (hp : 0 ≤ p) :
    max a b * p - q = max (a * p - q) (b * p - q) := by
  rcases le_total a b with h | h
  · have hm := mul_le_mul_of_nonneg_right h hp
    rw [max_eq_right h, max_eq_right (by linarith)]
  · have hm := mul_le_mul_of_nonneg_right h hp
    rw [max_eq_left h, max_eq_left (by linarith)]

/-- Every `Speed` conversion factor is nonzero. -/
theorem Speed.speed_factor_ne_zero (u : Speed.Unit) :
    Speed.s_Conversion u ≠ 0 := by
  cases u <;> norm_num [Speed.s_Conversion]

/-- `Speed.Convert` at equal units is the identity. -/
theorem Speed.speed_convert_self (v : ℚ) (u : Speed.Unit) :
    Speed.Convert v u u = v :=
  ratio_identity v _ (Speed.speed_factor_ne_zero u)

/-- `Speed.Convert` forth and back is the identity. -/
theorem Speed.speed_convert_roundtrip (v : ℚ) (a b : Speed.Unit) :
    Speed.Convert (Speed.Convert v a b) b a = v :=
  ratio_roundtrip v _ _ (Speed.speed_factor_ne_zero a)
    (Speed.speed_factor_ne_zero b)

/-- Every `Distance` conversion factor is nonzero. -/
theorem Distance.distance_factor_ne_zero (u : Distance.Unit) :
    Distance.s_Conversion u ≠ 0 := by
  cases u <;> norm_num [Distance.s_Conversion]

/-- `Distance.Convert` at equal units is the identity. -/
theorem Distance.distance_convert_self (v : ℚ) (u : Distance.Unit) :
    Distance.Convert v u u = v :=
  ratio_identity v _ (Distance.distance_factor_ne_zero u)

/-- `Distance.Convert` forth and back is the identity. -/
theorem Distance.distance_convert_roundtrip (v : ℚ) (a b : Distance.Unit) :
    Distance.Convert (Distance.Convert v a b) b a = v :=
  ratio_roundtrip v _ _ (Distance.distance_factor_ne_zero a)
    (Distance.distance_factor_ne_zero b)

/-- Every `Rotation` conversion factor is nonzero. -/
theorem Rotation.rotation_factor_ne_zero (u : Rotation.Unit) :
    Rotation.s_Conversion u ≠ 0 := by
  cases u <;> norm_num [Rotation.s_Conversion]

/-- `Rotation.Convert` at equal units is the identity. -/
theorem Rotation.rotation_convert_self (v : ℚ) (u : Rotation.Unit) :
    Rotation.Convert v u u = v :=
  ratio_identity v _ (Rotation.rotation_factor_ne_zero u)

/-- `Rotation.Convert` forth and back is the identity. -/
theorem Rotation.rotation_convert_roundtrip (v : ℚ) (a b : Rotation.Unit) :
    Rotation.Convert (Rotation.Convert v a b) b a = v :=
  ratio_roundtrip v _ _ (Rotation.rotation_factor_ne_zero a)
    (Rotation.rotation_factor_ne_zero b)

/-- Every `Time` conversion factor is nonzero. -/
theorem Time.time_factor_ne_zero (u : Time.Unit) :
    Time.s_Conversion u ≠ 0 := by
  cases u <;> norm_num [Time.s_Conversion]

/-- `Time.Convert` at equal units is the identity. -/
theorem Time.time_convert_self (v : ℚ) (u : Time.Unit) :
    Time.Convert v u u = v :=
  ratio_identity v _ (Time.time_factor_ne_zero u)

/-- `Time.Convert` forth and back is the identity. -/
theorem Time.time_convert_roundtrip (v : ℚ) (a b : Time.Unit) :
    Time.Convert (Time.Convert v a b) b a = v :=
  ratio_roundtrip v _ _ (Time.time_factor_ne_zero a)
    (Time.time_factor_ne_zero b)

/-- Every `Pressure` conversion factor is nonzero. -/
theorem Pressure.pressure_factor_ne_zero (u : Pressure.Unit) :
    Pressure.s_Conversion u ≠ 0 := by
  cases u <;> norm_num [Pressure.s_Conversion]

/-- `Pressure.Convert` at equal units is the identity. -/
theorem Pressure.pressure_convert_self (v : ℚ) (u : Pressure.Unit) :
    Pressure.Convert v u u = v :=
  ratio_identity v _ (Pressure.pressure_factor_ne_zero u)

/-- `Pressure.Convert` forth and back is the identity. -/
theorem Pressure.pressure_convert_roundtrip (v : ℚ) (a b : Pressure.Unit) :
    Pressure.Convert (Pressure.Convert v a b) b a = v :=
  ratio_roundtrip v _ _ (Pressure.pressure_factor_ne_zero a)
    (Pressure.pressure_factor_ne_zero b)

/-- Every `Mass` conversion factor is nonzero. -/
theorem Mass.mass_factor_ne_zero (u : Mass.Unit) :
    Mass.s_Conversion u ≠ 0 := by
  cases u <;> norm_num [Mass.s_Conversion]

/-- `Mass.Convert` at equal units is the identity. -/
theorem Mass.mass_convert_self (v : ℚ) (u : Mass.Unit) :
    Mass.Convert v u u = v :=
  ratio_identity v _ (Mass.mass_factor_ne_zero u)

/-- `Mass.Convert` forth and back is the identity. -/
theorem Mass.mass_convert_roundtrip (v : ℚ) (a b : Mass.Unit) :
    Mass.Convert (Mass.Convert v a b) b a = v :=
  ratio_roundtrip v _ _ (Mass.mass_factor_ne_zero a)
    (Mass.mass_factor_ne_zero b)

/-- Every `Area` conversion factor is nonzero. -/
theorem Area.area_factor_ne_zero (u : Area.Unit) :
    Area.s_Conversion u ≠ 0 := by
  cases u <;> norm_num [Area.s_Conversion]

/-- `Area.Convert` at equal units is the identity. -/
theorem Area.area_convert_self (v : ℚ) (u : Area.Unit) :
    Area.Convert v u u = v :=
  ratio_identity v _ (Area.area_factor_ne_zero u)

/-- `Area.Convert` forth and back is the identity. -/
theorem Area.area_convert_roundtrip (v : ℚ) (a b : Area.Unit) :
    Area.Convert (Area.Convert v a b) b a = v :=
  ratio_roundtrip v _ _ (Area.area_factor_ne_zero a)
    (Area.area_factor_ne_zero b)

/-- Every `Volume` conversion factor is nonzero. -/
theorem Volume.volume_factor_ne_zero (u : Volume.Unit) :
    Volume.s_Conversion u ≠ 0 := by
  cases u <;> norm_num [Volume.s_Conversion]

/-- `Volume.Convert` at equal units is the identity. -/
theorem Volume.volume_convert_self (v : ℚ) (u : Volume.Unit) :
    Volume.Convert v u u = v :=
  ratio_identity v _ (Volume.volume_factor_ne_zero u)

/-- `Volume.Convert` forth and back is the identity. -/
theorem Volume.volume_convert_roundtrip (v : ℚ) (a b : Volume.Unit) :
    Volume.Convert (Volume.Convert v a b) b a = v :=
  ratio_roundtrip v _ _ (Volume.volume_factor_ne_zero a)
    (Volume.volume_factor_ne_zero b)

end Conversions

namespace Conversions

/-- The source literal `0.0` for absolute zero is the rational zero. -/
theorem Temperature.absolute_zero_eq : Temperature.s_AbsoluteZero = 0 := by
  norm_num [Temperature.s_AbsoluteZero]

/-- The Planck-temperature constant is nonnegative. -/
theorem Temperature.planck_nonneg : (0 : ℚ) ≤ Temperature.s_PlanckTemperature := by
  norm_num [Temperature.s_PlanckTemperature]

/-- Celsius to Kelvin: the engine subtracts 272.15 and clamps at zero. -/
theorem Temperature.convert_celsius_kelvin (v : ℚ) :
    Temperature.Convert v .Celsius .Kelvin = max (v - 272.15) 0 := by
  simp only [Temperature.Convert, Temperature.absolute_zero_eq]

/-- Fahrenheit to Kelvin: the engine rescales and clamps at zero. -/
theorem Temperature.convert_fahrenheit_kelvin (v : ℚ) :
    Temperature.Convert v .Fahrenheit .Kelvin = max ((v + 459.67) / 1.8) 0 := by
  simp only [Temperature.Convert, Temperature.absolute_zero_eq]

/-- Kelvin to Kelvin: the engine only clamps at zero. -/
theorem Temperature.convert_kelvin_kelvin (v : ℚ) :
    Temperature.Convert v .Kelvin .Kelvin = max v 0 := by
  simp only [Temperature.Convert, Temperature.absolute_zero_eq]

/-- Kelvin to Celsius: the engine clamps at zero then adds 273.15. -/
theorem Temperature.convert_kelvin_celsius (v : ℚ) :
    Temperature.Convert v .Kelvin .Celsius = max v 0 + 273.15 := by
  simp only [Temperature.Convert, Temperature.absolute_zero_eq]

/-- Kelvin to Fahrenheit: the engine clamps at zero then rescales. -/
theorem Temperature.convert_kelvin_fahrenheit (v : ℚ) :
    Temperature.Convert v .Kelvin .Fahrenheit = max v 0 * 1.8 - 459.67 := by
  simp only [Temperature.Convert, Temperature.absolute_zero_eq]

/-- Celsius to Celsius is NOT the identity: the mismatched offsets
(−272.15 in, +273.15 out) shift the value by one degree above the floor. -/
theorem Temperature.convert_celsius_self (v : ℚ) :
    Temperature.Convert v .Celsius .Celsius = max (v + 1) 273.15 := by
  simp only [Temperature.Convert, Temperature.absolute_zero_eq]
  rw [← max_add_add_right]
  congr 1 <;> ring

/-- Fahrenheit to Fahrenheit is the identity above the clamped floor. -/
theorem Temperature.convert_fahrenheit_self (v : ℚ) :
    Temperature.Convert v .Fahrenheit .Fahrenheit = max v (-459.67) := by
  simp only [Temperature.Convert, Temperature.absolute_zero_eq]
  rw [max_mul_sub _ _ _ _ (by norm_num : (0:ℚ) ≤ 1.8),
    div_mul_cancel₀ _ (by norm_num : (1.8:ℚ) ≠ 0), add_sub_cancel_right]
  congr 1
  norm_num

/-- Fahrenheit round-trip through Kelvin is the identity above the floor. -/
theorem Temperature.roundtrip_fahrenheit (v : ℚ) :
    Temperature.Convert (Temperature.Convert v .Fahrenheit .Kelvin)
      .Kelvin .Fahrenheit = max v (-459.67) := by
  rw [Temperature.convert_fahrenheit_kelvin, Temperature.convert_kelvin_fahrenheit,
    max_eq_left (le_max_right _ _),
    max_mul_sub _ _ _ _ (by norm_num : (0:ℚ) ≤ 1.8),
    div_mul_cancel₀ _ (by norm_num : (1.8:ℚ) ≠ 0), add_sub_cancel_right]
  congr 1
  norm_num

/-- Celsius round-trip through Kelvin gains one degree above the floor. -/
theorem Temperature.roundtrip_celsius (v : ℚ) :
    Temperature.Convert (Temperature.Convert v .Celsius .Kelvin)
      .Kelvin .Celsius = max (v + 1) 273.15 := by
  rw [Temperature.convert_celsius_kelvin, Temperature.convert_kelvin_celsius,
    max_eq_left (le_max_right _ _), ← max_add_add_right]
  congr 1 <;> ring

/-- Any conversion into Kelvin is nonnegative (the absolute-zero clamp). -/
theorem Temperature.convert_to_kelvin_nonneg (v : ℚ) (u : Temperature.Unit) :
    0 ≤ Temperature.Convert v u .Kelvin := by
  cases u
  · rw [Temperature.convert_celsius_kelvin]; exact le_max_right _ _
  · rw [Temperature.convert_fahrenheit_kelvin]; exact le_max_right _ _
  · rw [Temperature.convert_kelvin_kelvin]; exact le_max_right _ _

/-- `ClampTemperature` is idempotent at Kelvin. -/
theorem Temperature.clamp_kelvin_idem (v : ℚ) :
    Temperature.ClampTemperature (Temperature.ClampTemperature v .Kelvin) .Kelvin
      = Temperature.ClampTemperature v .Kelvin := by
  simp only [Temperature.ClampTemperature, Temperature.convert_kelvin_kelvin]
  have hm0 : (0:ℚ) ≤ min (max v 0) Temperature.s_PlanckTemperature :=
    le_min (le_max_right _ _) Temperature.planck_nonneg
  rw [max_eq_left hm0, max_eq_left hm0, min_eq_left (min_le_right _ _),
    max_eq_left hm0]

/-- `ClampTemperature` is idempotent at Fahrenheit. -/
theorem Temperature.clamp_fahrenheit_idem (v : ℚ) :
    Temperature.ClampTemperature
      (Temperature.ClampTemperature v .Fahrenheit) .Fahrenheit
      = Temperature.ClampTemperature v .Fahrenheit := by
  simp only [Temperature.ClampTemperature, Temperature.convert_fahrenheit_kelvin,
    Temperature.convert_kelvin_fahrenheit]
  have hm0 : (0:ℚ) ≤
      min (max ((v + 459.67) / 1.8) 0) Temperature.s_PlanckTemperature :=
    le_min (le_max_right _ _) Temperature.planck_nonneg
  rw [max_eq_left hm0, sub_add_cancel,
    mul_div_cancel_right₀ _ (by norm_num : (1.8:ℚ) ≠ 0),
    max_eq_left hm0, min_eq_left (min_le_right _ _), max_eq_left hm0]

/-- Value of `ClampTemperature` at 0 °C. -/
theorem Temperature.clamp_celsius_zero :
    Temperature.ClampTemperature 0 .Celsius = 273.15 := by
  unfold Temperature.ClampTemperature
  rw [Temperature.convert_celsius_kelvin, Temperature.convert_kelvin_celsius]
  norm_num [Temperature.s_PlanckTemperature]

/-- Value of `ClampTemperature` at 273.15 °C. -/
theorem Temperature.clamp_celsius_once_more :
    Temperature.ClampTemperature 273.15 .Celsius = 274.15 := by
  unfold Temperature.ClampTemperature
  rw [Temperature.convert_celsius_kelvin, Temperature.convert_kelvin_celsius]
  norm_num [Temperature.s_PlanckTemperature]

/-- A huge Kelvin input is clamped exactly to the Planck constant. -/
theorem Temperature.clamp_kelvin_big :
    Temperature.ClampTemperature (10 ^ 40) .Kelvin
      = Temperature.s_PlanckTemperature := by
  unfold Temperature.ClampTemperature
  rw [Temperature.convert_kelvin_kelvin, Temperature.convert_kelvin_kelvin]
  norm_num [Temperature.s_PlanckTemperature]

/-- On raw enum codes, the engine fails exactly when a code is outside
`{0, 1, 2}` (the two `default:` branches). -/
theorem Temperature.checked_error_iff (v : ℚ) (f t : Nat) :
    Temperature.ConvertChecked v f t = Except.error "Not implemented!"
      ↔ 3 ≤ f ∨ 3 ≤ t := by
  rcases f with _|_|_|f <;> rcases t with _|_|_|t <;>
    simp [Temperature.ConvertChecked, Except.pure, Except.bind, pure, Bind.bind] <;>
    rfl

/-- On the codes of valid enumerators, the checked engine agrees with
`Temperature.Convert` and never fails. -/
theorem Temperature.checked_ok (v : ℚ) (u w : Temperature.Unit) :
    Temperature.ConvertChecked v (Temperature.unitCode u) (Temperature.unitCode w)
      = Except.ok (Temperature.Convert v u w) := by
  cases u <;> cases w <;> rfl

/-- The source's degrees-to-radians factor times a latitude, in the
orientation used by the spec. -/
theorem Rotation.degreesToRadians_mul (lat : ℝ) :
    Rotation.s_DegreesToRadians * lat = lat * (Real.pi / 180) := by
  have h : (180.0 : ℝ) = 180 := by norm_num
  rw [Rotation.s_DegreesToRadians, h, mul_comm]

/-- `ArcSecondsToMetres` written with the spec's formula. -/
theorem Distance.arc_formula (a lat : ℝ) :
    Distance.ArcSecondsToMetres a lat
      = a * |Real.cos (lat * (Real.pi / 180)) * (1852 / 60)| := by
  rw [Distance.ArcSecondsToMetres, Rotation.degreesToRadians_mul]
  norm_num

/-- One arc-minute at the equator is exactly one nautical mile. -/
theorem Distance.arc_at_equator : Distance.ArcSecondsToMetres 60 0.0 = 1852 := by
  rw [Distance.ArcSecondsToMetres]
  have h0 : Rotation.s_DegreesToRadians * 0.0 = 0 := by
    rw [Rotation.s_DegreesToRadians]; norm_num
  rw [h0, Real.cos_zero, one_mul,
    abs_of_pos (by norm_num : (0:ℝ) < 1852.0 / 60.0)]
  norm_num

/-- The geospatial round-trip scales by the square of the cosine of the
latitude. -/
theorem Distance.arc_roundtrip (a lat : ℝ) :
    Distance.MetresToArcSeconds (Distance.ArcSecondsToMetres a lat) lat
      = a * Real.cos (lat * (Real.pi / 180)) ^ 2 := by
  rw [Distance.ArcSecondsToMetres, Distance.MetresToArcSeconds,
    Rotation.degreesToRadians_mul]
  set c := Real.cos (lat * (Real.pi / 180))
  have hq : |(1852.0 / 60.0 : ℝ)| = 1852.0 / 60.0 := abs_of_pos (by norm_num)
  have h60 : (1852.0 / 60.0 : ℝ) ≠ 0 := by norm_num
  rw [abs_mul, hq, abs_div, hq]
  calc a * (|c| * (1852.0 / 60.0)) * (|c| / (1852.0 / 60.0))
      = a * (|c| * |c|) * ((1852.0 / 60.0) / (1852.0 / 60.0)) := by ring
    _ = a * (c * c) * 1 := by rw [abs_mul_abs_self, div_self h60]
    _ = a * c ^ 2 := by ring

/-- The geospatial pair is mutually inverse exactly where the cosine of the
latitude has absolute value one. -/
theorem Distance.arc_inverse_iff (lat : ℝ) :
    (∀ a : ℝ,
        Distance.MetresToArcSeconds (Distance.ArcSecondsToMetres a lat) lat = a)
      ↔ |Real.cos (lat * (Real.pi / 180))| = 1 := by
  set c := Real.cos (lat * (Real.pi / 180)) with hc
  constructor
  · intro h
    have h1 := h 1
    rw [Distance.arc_roundtrip, one_mul, ← hc] at h1
    have h2 : |c| ^ 2 = 1 := by rw [sq_abs]; exact h1
    have h3 : (|c| - 1) * (|c| + 1) = 0 := by linear_combination h2
    rcases mul_eq_zero.mp h3 with h4 | h4
    · linarith
    · have := abs_nonneg c
      linarith
  · intro h a
    rw [Distance.arc_roundtrip, ← hc, ← sq_abs c, h]
    norm_num

end Conversions

/-!
## Claim theorems

One theorem per claim of the specification review, with counterexamples
where the specification's statement fails on the code.
-/

namespace Conversions

/-- Claim C1, counterexample: the claim says the engine converts Celsius to
Kelvin by ADDING 272.15, so 300 °C would become 572.15 K; the code instead
subtracts 272.15 (and clamps at zero), giving 27.85 K. -/
theorem claim_C1_counterexample :
    Temperature.Convert 300 .Celsius .Kelvin = 27.85 ∧
    (27.85 : ℚ) ≠ 300 + 272.15 := by
  constructor
  · rw [Temperature.convert_celsius_kelvin]; norm_num
  · norm_num

/-- Claim C1, amended: `Temperature.Convert` maps a Celsius source value `v`
to the Kelvin hub by SUBTRACTING 272.15 (then clamping at 0 K), and
`Temperature.Convert(0, Kelvin, Celsius)` yields 273.15 exactly — the
destination-side offset constant, which differs from the 272.15 source-side
offset. -/
theorem claim_C1_amended :
    (∀ v : ℚ, Temperature.Convert v .Celsius .Kelvin = max (v - 272.15) 0) ∧
    Temperature.Convert 0 .Kelvin .Celsius = 273.15 := by
  constructor
  · exact Temperature.convert_celsius_kelvin
  · rw [Temperature.convert_kelvin_celsius]; norm_num

/-- Claim C2, counterexample: identity conversion fails for Temperature:
converting 0 °C to °C yields 273.15, not 0 (far beyond any rounding
tolerance). -/
theorem claim_C2_counterexample :
    Temperature.Convert 0 .Celsius .Celsius = 273.15 ∧ (273.15 : ℚ) ≠ 0 := by
  constructor
  · rw [Temperature.convert_celsius_self]; norm_num
  · norm_num

/-- Claim C2, amended: `Convert(v, U, U) = v` holds exactly for every unit
of the eight linear categories; for Temperature the self-conversion is
`max v 0` at Kelvin, `max v (-459.67)` at Fahrenheit and `max (v+1) 273.15`
at Celsius, so the identity fails there in general. -/
theorem claim_C2_amended :
    (∀ (v : ℚ) (u : Speed.Unit), Speed.Convert v u u = v) ∧
    (∀ (v : ℚ) (u : Distance.Unit), Distance.Convert v u u = v) ∧
    (∀ (v : ℚ) (u : Rotation.Unit), Rotation.Convert v u u = v) ∧
    (∀ (v : ℚ) (u : Time.Unit), Time.Convert v u u = v) ∧
    (∀ (v : ℚ) (u : Pressure.Unit), Pressure.Convert v u u = v) ∧
    (∀ (v : ℚ) (u : Mass.Unit), Mass.Convert v u u = v) ∧
    (∀ (v : ℚ) (u : Area.Unit), Area.Convert v u u = v) ∧
    (∀ (v : ℚ) (u : Volume.Unit), Volume.Convert v u u = v) ∧
    (∀ v : ℚ, Temperature.Convert v .Kelvin .Kelvin = max v 0) ∧
    (∀ v : ℚ, Temperature.Convert v .Fahrenheit .Fahrenheit
        = max v (-459.67)) ∧
    (∀ v : ℚ, Temperature.Convert v .Celsius .Celsius = max (v + 1) 273.15) :=
  ⟨Speed.speed_convert_self, Distance.distance_convert_self, Rotation.rotation_convert_self,
    Time.time_convert_self, Pressure.pressure_convert_self, Mass.mass_convert_self,
    Area.area_convert_self, Volume.volume_convert_self, Temperature.convert_kelvin_kelvin,
    Temperature.convert_fahrenheit_self, Temperature.convert_celsius_self⟩

/-- Claim C3, counterexample: the Temperature round-trip 300 °C → K → °C
yields 301, an absolute error of 1 — far beyond a 1e-9 relative tolerance —
because the Kelvin-to-Celsius formula (+273.15) is not the algebraic inverse
of the Celsius-to-Kelvin formula (−272.15). -/
theorem claim_C3_counterexample :
    Temperature.Convert (Temperature.Convert 300 .Celsius .Kelvin)
      .Kelvin .Celsius = 301 ∧
    (1e-9 : ℚ) * 300 < |(301 : ℚ) - 300| := by
  constructor
  · rw [Temperature.roundtrip_celsius]; norm_num
  · rw [abs_of_nonneg (by norm_num : (0:ℚ) ≤ (301:ℚ) - 300)]; norm_num

/-- Claim C3, amended: the round-trip `Convert(Convert(v,A,B),B,A) = v`
holds exactly for every pair of units of the eight linear categories; for
Temperature the destination formulas are NOT the algebraic inverses of the
source formulas: the Fahrenheit↔Kelvin round-trip equals `max v (-459.67)`
(exact above the 0 K floor), while any round-trip through Celsius gains one
degree above the floor (`max (v+1) 273.15`). -/
theorem claim_C3_amended :
    (∀ (v : ℚ) (a b : Speed.Unit),
        Speed.Convert (Speed.Convert v a b) b a = v) ∧
    (∀ (v : ℚ) (a b : Distance.Unit),
        Distance.Convert (Distance.Convert v a b) b a = v) ∧
    (∀ (v : ℚ) (a b : Rotation.Unit),
        Rotation.Convert (Rotation.Convert v a b) b a = v) ∧
    (∀ (v : ℚ) (a b : Time.Unit),
        Time.Convert (Time.Convert v a b) b a = v) ∧
    (∀ (v : ℚ) (a b : Pressure.Unit),
        Pressure.Convert (Pressure.Convert v a b) b a = v) ∧
    (∀ (v : ℚ) (a b : Mass.Unit),
        Mass.Convert (Mass.Convert v a b) b a = v) ∧
    (∀ (v : ℚ) (a b : Area.Unit),
        Area.Convert (Area.Convert v a b) b a = v) ∧
    (∀ (v : ℚ) (a b : Volume.Unit),
        Volume.Convert (Volume.Convert v a b) b a = v) ∧
    (∀ v : ℚ, Temperature.Convert (Temperature.Convert v .Fahrenheit .Kelvin)
        .Kelvin .Fahrenheit = max v (-459.67)) ∧
    (∀ v : ℚ, Temperature.Convert (Temperature.Convert v .Celsius .Kelvin)
        .Kelvin .Celsius = max (v + 1) 273.15) :=
  ⟨Speed.speed_convert_roundtrip, Distance.distance_convert_roundtrip,
    Rotation.rotation_convert_roundtrip, Time.time_convert_roundtrip,
    Pressure.pressure_convert_roundtrip, Mass.mass_convert_roundtrip,
    Area.area_convert_roundtrip, Volume.volume_convert_roundtrip,
    Temperature.roundtrip_fahrenheit, Temperature.roundtrip_celsius⟩

/-- Claim C4 (confirmed): `Temperature.Convert` clamps the intermediate
Kelvin value at the absolute-zero floor between the to-Kelvin and
to-destination steps, any converted result re-converted to Kelvin is
nonnegative, and `Convert(-500, Celsius, Kelvin) = 0`. -/
theorem claim_C4 :
    (∀ (v : ℚ) (f t : Temperature.Unit),
        Temperature.Convert v f t
          = Temperature.fromKelvin
              (max (Temperature.toKelvin v f) Temperature.s_AbsoluteZero) t) ∧
    (∀ (v : ℚ) (u w : Temperature.Unit),
        0 ≤ Temperature.Convert (Temperature.Convert v u w) w .Kelvin) ∧
    Temperature.Convert (-500) .Celsius .Kelvin = 0 := by
  refine ⟨?_, ?_, ?_⟩
  · intro v f t
    cases f <;> cases t <;> rfl
  · intro v u w
    exact Temperature.convert_to_kelvin_nonneg _ w
  · rw [Temperature.convert_celsius_kelvin]; norm_num

/-- Claim C5, counterexample: `ClampTemperature` is NOT idempotent at
Celsius: one application of the clamp to 0 °C gives 273.15, a second
application gives 274.15. -/
theorem claim_C5_counterexample :
    Temperature.ClampTemperature
      (Temperature.ClampTemperature 0 .Celsius) .Celsius = 274.15 ∧
    Temperature.ClampTemperature 0 .Celsius = 273.15 ∧
    (274.15 : ℚ) ≠ 273.15 := by
  refine ⟨?_, Temperature.clamp_celsius_zero, by norm_num⟩
  rw [Temperature.clamp_celsius_zero]
  exact Temperature.clamp_celsius_once_more

/-- Claim C5, amended: `ClampTemperature` is idempotent at Fahrenheit and at
Kelvin (whose conversion formulas are mutually inverse), but not at Celsius,
where the mismatched offsets shift the value on every application. -/
theorem claim_C5_amended :
    (∀ v : ℚ, Temperature.ClampTemperature
        (Temperature.ClampTemperature v .Fahrenheit) .Fahrenheit
        = Temperature.ClampTemperature v .Fahrenheit) ∧
    (∀ v : ℚ, Temperature.ClampTemperature
        (Temperature.ClampTemperature v .Kelvin) .Kelvin
        = Temperature.ClampTemperature v .Kelvin) :=
  ⟨Temperature.clamp_fahrenheit_idem, Temperature.clamp_kelvin_idem⟩

/-- Claim C6, counterexample: the source's Planck-temperature constant is
1.42 × 10^34, exactly one tenth of the claimed "approximately
1.42 × 10^35". -/
theorem claim_C6_counterexample :
    Temperature.s_PlanckTemperature = 1.42 * 10 ^ 34 ∧
    Temperature.s_PlanckTemperature * 10 = 1.42 * 10 ^ 35 := by
  constructor <;> norm_num [Temperature.s_PlanckTemperature]

/-- Claim C6, amended: `ClampTemperature` converts to Kelvin, takes the
minimum with the Planck-temperature constant — whose value in the source is
1.42 × 10^34, not ≈1.42 × 10^35 — and converts back; in particular
`ClampTemperature(10^40, Kelvin)` is bounded by the constant. -/
theorem claim_C6_amended :
    (∀ (v : ℚ) (u : Temperature.Unit),
        Temperature.ClampTemperature v u
          = Temperature.Convert
              (min (Temperature.Convert v u .Kelvin)
                Temperature.s_PlanckTemperature)
              .Kelvin u) ∧
    Temperature.s_PlanckTemperature = 1.42 * 10 ^ 34 ∧
    Temperature.ClampTemperature (10 ^ 40) .Kelvin
      ≤ Temperature.s_PlanckTemperature := by
  refine ⟨fun v u => rfl, by norm_num [Temperature.s_PlanckTemperature], ?_⟩
  exact le_of_eq Temperature.clamp_kelvin_big

/-- Claim C7 fails on the code: within the Volume category the alias table
registers the key "in3" twice, once for CubicInch and once for CubicFoot, so
the alias keys of a single category are not disjoint. -/
theorem claim_C7_code_bug :
    ("in3", Volume.Unit.CubicInch) ∈ Volume.s_Lookup ∧
    ("in3", Volume.Unit.CubicFoot) ∈ Volume.s_Lookup ∧
    Volume.Unit.CubicInch ≠ Volume.Unit.CubicFoot := by
  refine ⟨?_, ?_, ?_⟩ <;> decide

/-- Claim C8 (confirmed): `ArcSecondsToMetres(arcSeconds, lat)` equals
`arcSeconds * |cos(lat * π/180) * (1852/60)|`, and sixty arc-seconds at the
equator are exactly 1852 metres. -/
theorem claim_C8 :
    (∀ a lat : ℝ, Distance.ArcSecondsToMetres a lat
        = a * |Real.cos (lat * (Real.pi / 180)) * (1852 / 60)|) ∧
    Distance.ArcSecondsToMetres 60 0.0 = 1852 :=
  ⟨Distance.arc_formula, Distance.arc_at_equator⟩

/-- Claim C9 (confirmed): on raw enum codes the temperature engine signals
the "Not implemented!" failure exactly when the from-code or to-code lies
outside {0, 1, 2} = {Celsius, Fahrenheit, Kelvin}; on codes of valid
enumerators it never fails and agrees with the total `Convert`. -/
theorem claim_C9 :
    (∀ (v : ℚ) (f t : Nat),
        Temperature.ConvertChecked v f t = Except.error "Not implemented!"
          ↔ 3 ≤ f ∨ 3 ≤ t) ∧
    (∀ (v : ℚ) (u w : Temperature.Unit),
        Temperature.ConvertChecked v
            (Temperature.unitCode u) (Temperature.unitCode w)
          = Except.ok (Temperature.Convert v u w)) :=
  ⟨Temperature.checked_error_iff, Temperature.checked_ok⟩

/-- Claim C10 (confirmed): the geospatial round-trip
`MetresToArcSeconds(ArcSecondsToMetres(a, L), L)` equals
`a * cos²(L * π/180)` in real arithmetic, and the two functions are mutual
inverses at a latitude exactly when the cosine of that latitude has absolute
value one (as at latitude 0). -/
theorem claim_C10 :
    (∀ a lat : ℝ,
        Distance.MetresToArcSeconds (Distance.ArcSecondsToMetres a lat) lat
          = a * Real.cos (lat * (Real.pi / 180)) ^ 2) ∧
    (∀ lat : ℝ,
        (∀ a : ℝ, Distance.MetresToArcSeconds
            (Distance.ArcSecondsToMetres a lat) lat = a)
          ↔ |Real.cos (lat * (Real.pi / 180))| = 1) :=
  ⟨Distance.arc_roundtrip, Distance.arc_inverse_iff⟩

end Conversions
